import Mathlib

/-!
# PQ luminance test bars: the pixel shader and the swap-chain manager

A shallow embedding of `src/Main.cpp`: the HLSL pixel shader (`kDigits`,
`SampleGlyph`, `SampleValue`, `ApplyPQ`, `main`) and the Direct3D swap-chain
management (`CreateSwapChainForMode`, `ResizeSwapChain`, `Render`,
`ParseControls`).

Conventions.
* HLSL `int` / `uint` are `Int` / `Nat`; the `(uint)` cast and the `int2`
  subtraction wrap modulo `2^32` explicitly.
* HLSL `float` values are elements of an arbitrary linearly ordered field `F`
  with a floor function (`ℚ` contains every finite `float`; `ℝ` carries the
  power function).  Arithmetic on them is exact: rounding error is not modelled.
* The HLSL intrinsic `pow` is a parameter of `ApplyPQ` and `main`.
-/

namespace PqLuma

/-! ## HLSL scalar helpers -/

/-- HLSL vector type `int2`. -/
structure int2 where
  x : Int
  y : Int
deriving DecidableEq, Repr

/-- Two's-complement wrap of an integer into the range of a 32-bit `int`. -/
def wrapInt32 (v : Int) : Int := (v + 2147483648) % 4294967296 - 2147483648

/-- The cast `(uint)v` of a 32-bit `int`. -/
def toUint (v : Int) : Nat := (v % 4294967296).toNat

/-- HLSL `clamp(v, lo, hi)` on `int`: `min(max(v, lo), hi)`. -/
def clampInt (v lo hi : Int) : Int := min (max v lo) hi

/-! ## Font table and glyph sampler (Main.cpp lines 50-74) -/

/-- The 3x5 bitmap font, one 15-bit pattern per decimal digit. -/
def kDigits : List Nat :=
  [31599, 11415, 29671, 29647, 23497, 31183, 31215, 29257, 31727, 31695]

def FONT_SCALE : Int := 4

def SEP_PX : Int := 2

/-- Shader function `SampleGlyph(uint digit, int2 pos)`. -/
def SampleGlyph (digit : Nat) (pos : int2) : Bool :=
  if toUint pos.x ≥ 3 ∨ toUint pos.y ≥ 5 then false
  else
    let bitIdx : Nat := (4 - toUint pos.y) * 3 + (2 - toUint pos.x)
    ((kDigits.getD digit 0 >>> bitIdx) &&& 1) != 0

/-! ## HLSL float helpers and the numeric label renderer (Main.cpp lines 76-135) -/

section Float
variable {F : Type} [LinearOrderedField F] [FloorRing F]

/-- The cast `(int)v` of a `float`: truncation toward zero. -/
def truncToInt (v : F) : Int := if 0 ≤ v then ⌊v⌋ else ⌈v⌉

/-- HLSL intrinsic `round`: the nearest integer, a tie going to the even one
(the shader model 5 instruction `round_ne`), returned as a `float`. -/
def hlslRound (v : F) : F :=
  let f : Int := ⌊v⌋
  let r : F := v - (f : F)
  if r < 1 / 2 then (f : F)
  else if 1 / 2 < r then ((f + 1 : Int) : F)
  else if f % 2 = 0 then (f : F) else ((f + 1 : Int) : F)

/-- HLSL intrinsic `fmod(a, b)`: `a - b * trunc(a / b)`, the remainder with the sign of `a`. -/
def fmod (a b : F) : F := a - b * (truncToInt (a / b) : F)

/-- HLSL intrinsic `lerp(a, b, s)`: `a * (1 - s) + b * s`. -/
def lerp (a b s : F) : F := a * (1 - s) + b * s

/-- The loop `while (tmp > 0) { intDigits++; tmp /= 10; }` of `SampleValue`. -/
def countDigitsLoop (tmp intDigits : Nat) : Nat :=
  if h : 0 < tmp then countDigitsLoop (tmp / 10) (intDigits + 1) else intDigits
termination_by tmp
decreasing_by exact Nat.div_lt_self h (by decide)

/-- The loop `for (int i = 0; i < n; i++) divisor *= 10;` of `SampleValue`. -/
def mulTenLoop : Nat → Int → Int
  | 0, divisor => divisor
  | n + 1, divisor => mulTenLoop n (divisor * 10)

/-- Shader function `SampleValue(float nits, int2 screenPos, int2 origin)`. -/
def SampleValue (nits : F) (screenPos origin : int2) : Bool :=
  let lp : int2 := ⟨wrapInt32 (screenPos.x - origin.x), wrapInt32 (screenPos.y - origin.y)⟩
  let cellW : Int := (3 + 1) * FONT_SCALE
  let cellH : Int := 5 * FONT_SCALE
  if lp.y < 0 ∨ lp.y ≥ cellH ∨ lp.x < 0 then false
  else
    let intPart : Int := truncToInt nits
    let fracVal : Int := truncToInt (hlslRound ((nits - (intPart : F)) * 100000))
    let tmp : Int := max intPart 0
    let intDigits : Int := if tmp = 0 then 1 else (countDigitsLoop tmp.toNat 0 : Nat)
    let totalChars : Int := intDigits + 1 + 5
    let charIdx : Int := Int.tdiv lp.x cellW
    if charIdx ≥ totalChars then false
    else
      let fx : Int := Int.tdiv (Int.tmod lp.x cellW) FONT_SCALE
      let fy : Int := Int.tdiv lp.y FONT_SCALE
      if fx ≥ 3 then false
      else
        let fp : int2 := ⟨fx, fy⟩
        if charIdx < intDigits then
          let divisor : Int := mulTenLoop (intDigits - 1 - charIdx).toNat 1
          let digit : Int := Int.tmod (Int.tdiv intPart divisor) 10
          SampleGlyph (toUint (clampInt digit 0 9)) fp
        else if charIdx = intDigits then
          fp.x = 1 && fp.y = 4
        else
          let fracIdx : Int := charIdx - intDigits - 1
          let divisor : Int := mulTenLoop (4 - fracIdx).toNat 1
          let digit : Int := Int.tmod (Int.tdiv fracVal divisor) 10
          SampleGlyph (toUint (clampInt digit 0 9)) fp

/-- Shader function `ApplyPQ(float3 Y)`, the ST.2084 forward curve; `pow` is the HLSL intrinsic. -/
def ApplyPQ (pow : F → F → F) (Y : F × F × F) : F × F × F :=
  let m1 : F := 0.1593017578125
  let m2 : F := 78.84375
  let c1 : F := 0.8359375
  let c2 : F := 18.8515625
  let c3 : F := 18.6875
  let chan : F → F := fun y =>
    let Ym1 := pow (max y 0) m1
    let num := c1 + c2 * Ym1
    let den := 1 + c3 * Ym1
    pow (num / den) m2
  (chan Y.1, chan Y.2.1, chan Y.2.2)

/-- Constant buffer `TestParams` of the pixel shader. -/
structure TestParams (F : Type) where
  startNits : F
  endNits : F
  viewportSize : F × F
  numBars : Int
  outputMode : Int
  labelNits : F
  pad : F

/-- Local `barH` of `main`. -/
def barH (cb : TestParams F) : F := cb.viewportSize.2 / (cb.numBars : F)

/-- Local `barIdx` of `main`. -/
def barIdx (cb : TestParams F) (screenCoord : F × F) : Int :=
  clampInt (truncToInt (screenCoord.2 / barH cb)) 0 (cb.numBars - 1)

/-- Local `isSep` of `main`. -/
def isSep (cb : TestParams F) (screenCoord : F × F) : Bool :=
  let posInBar : F := fmod screenCoord.2 (barH cb)
  decide (posInBar < (SEP_PX : F)) || decide (posInBar ≥ barH cb - (SEP_PX : F))

/-- Local `barNits` of `main`. -/
def barNits (cb : TestParams F) (screenCoord : F × F) : F :=
  let t : F := if cb.numBars > 1 then ((barIdx cb screenCoord : Int) : F) / ((cb.numBars - 1 : Int) : F) else 0
  lerp cb.startNits cb.endNits t

/-- Local `inLabel` of `main`. -/
def inLabel (screenCoord : F × F) : Bool :=
  let totalChars : Int := 12
  let labelW : Int := totalChars * (3 + 1) * FONT_SCALE + 20
  decide (truncToInt screenCoord.1 < labelW)

/-- Local `isText` of `main`. -/
def isText (cb : TestParams F) (screenCoord : F × F) : Bool :=
  let cellH : Int := 5 * FONT_SCALE
  let labelY : Int :=
    truncToInt (((barIdx cb screenCoord : Int) : F) * barH cb + (barH cb - (cellH : F)) * 0.5)
  SampleValue (barNits cb screenCoord)
    ⟨truncToInt screenCoord.1, truncToInt screenCoord.2⟩ ⟨10, labelY⟩

/-- The two branches on `outputMode` in `main`, applied to one luminance. -/
def encode (pow : F → F → F) (outputMode : Int) (nits : F) : F × F × F :=
  if outputMode = 0 then ApplyPQ pow (nits / 10000, nits / 10000, nits / 10000)
  else (nits / 80, nits / 80, nits / 80)

/-- Pixel shader entry point `main`; `screenCoord` is `input.pos.xy`. -/
def main (pow : F → F → F) (cb : TestParams F) (screenCoord : F × F) : F × F × F × F :=
  let barColor : F × F × F := encode pow cb.outputMode (barNits cb screenCoord)
  let labelColor : F × F × F := encode pow cb.outputMode cb.labelNits
  let result : F × F × F := barColor
  let result : F × F × F := if inLabel screenCoord then (0, 0, 0) else result
  let result : F × F × F := if isText cb screenCoord then labelColor else result
  let result : F × F × F := if isSep cb screenCoord then (0, 0, 0) else result
  (result.1, result.2.1, result.2.2, 1)
end Float

/-! ## Swap-chain management (Main.cpp lines 217-222, 313-411, 509-530) -/

/-- C++ enum `OutputMode`. -/
inductive OutputMode where
  | MODE_HDR10_PQ
  | MODE_FP16_SCRGB
deriving DecidableEq, Repr

/-- The members of the Windows SDK enum `DXGI_FORMAT` that the program names. -/
inductive DXGI_FORMAT where
  | DXGI_FORMAT_UNKNOWN
  | DXGI_FORMAT_R10G10B10A2_UNORM
  | DXGI_FORMAT_R16G16B16A16_FLOAT
deriving DecidableEq, Repr

/-- The members of the Windows SDK enum `DXGI_COLOR_SPACE_TYPE` for full-range RGB
with BT.709 or BT.2020 primaries. -/
inductive DXGI_COLOR_SPACE_TYPE where
  | DXGI_COLOR_SPACE_RGB_FULL_G22_NONE_P709
  | DXGI_COLOR_SPACE_RGB_FULL_G10_NONE_P709
  | DXGI_COLOR_SPACE_RGB_FULL_G2084_NONE_P2020
deriving DecidableEq, Repr

/-- Transfer functions named by the `G..` part of a DXGI colour-space constant. -/
inductive Transfer where
  | gamma22
  | linear
  | pq
deriving DecidableEq, Repr

/-- Primaries named by the `P..` part of a DXGI colour-space constant. -/
inductive Primaries where
  | bt709
  | bt2020
deriving DecidableEq, Repr

/-- What a DXGI colour-space constant declares, read off its name as the SDK
documents it: `RGB_FULL` is full-range RGB, `G22` gamma 2.2, `G10` gamma 1.0
(linear), `G2084` the ST.2084 PQ curve, `P709` / `P2020` the primaries. -/
structure ColorSpaceInfo where
  fullRangeRgb : Bool
  transfer : Transfer
  primaries : Primaries
deriving DecidableEq, Repr

/-- The declaration made by each colour-space constant, as the Windows SDK documents
it (`G22`: gamma 2.2, the sRGB definition; `G10`: gamma 1.0, the scRGB definition;
`G2084`: ST.2084, the HDR10 definition). -/
def colorSpaceInfo : DXGI_COLOR_SPACE_TYPE → ColorSpaceInfo
  | .DXGI_COLOR_SPACE_RGB_FULL_G22_NONE_P709 => ⟨true, .gamma22, .bt709⟩
  | .DXGI_COLOR_SPACE_RGB_FULL_G10_NONE_P709 => ⟨true, .linear, .bt709⟩
  | .DXGI_COLOR_SPACE_RGB_FULL_G2084_NONE_P2020 => ⟨true, .pq, .bt2020⟩

/-- The swap-chain object behind `g_swapChain` / `g_swapChain3`: its buffer size and
format, and the colour space last passed to `SetColorSpace1` (if any). -/
structure SwapChain where
  width : Nat
  height : Nat
  format : DXGI_FORMAT
  colorSpace : Option DXGI_COLOR_SPACE_TYPE
deriving DecidableEq, Repr

/-- The globals the swap-chain code reads and writes.  `g_swapChain3`, `g_rtv` and
`g_context` record whether the pointer is non-null. -/
structure D3DState where
  g_context : Bool
  g_swapChain : Option SwapChain
  g_swapChain3 : Bool
  g_rtv : Bool
  g_mode : OutputMode
deriving DecidableEq, Repr

/-- What the operating system answers during one call: the client rectangle of the
render window and whether each fallible API call succeeds. -/
structure ApiOutcome where
  clientWidth : Int
  clientHeight : Int
  createSwapChainOk : Bool
  queryInterfaceOk : Bool
  getBufferOk : Bool
  createViewOk : Bool
  resizeBuffersOk : Bool
deriving DecidableEq, Repr

/-- C++ `ReleaseRTV`. -/
def ReleaseRTV (s : D3DState) : D3DState := { s with g_rtv := false }

/-- C++ `CreateRTV`: the result and the new state. -/
def CreateRTV (api : ApiOutcome) (s : D3DState) : Bool × D3DState :=
  if !api.getBufferOk then (false, s)
  else if api.createViewOk then (true, { s with g_rtv := true })
  else (false, s)

/-- C++ `CreateSwapChainForMode`: the result and the new state. -/
def CreateSwapChainForMode (api : ApiOutcome) (mode : OutputMode) (s : D3DState) :
    Bool × D3DState :=
  let s := ReleaseRTV s
  let s := { s with g_swapChain3 := false }
  let s := { s with g_swapChain := none }
  let width : Nat := max (toUint api.clientWidth) 1
  let height : Nat := max (toUint api.clientHeight) 1
  let format : DXGI_FORMAT :=
    if mode = .MODE_HDR10_PQ then .DXGI_FORMAT_R10G10B10A2_UNORM
    else .DXGI_FORMAT_R16G16B16A16_FLOAT
  if !api.createSwapChainOk then (false, s)
  else
    let sc : SwapChain := ⟨width, height, format, none⟩
    let s := { s with g_swapChain := some sc }
    if !api.queryInterfaceOk then (false, s)
    else
      let s := { s with g_swapChain3 := true }
      let cs : DXGI_COLOR_SPACE_TYPE :=
        if mode = .MODE_HDR10_PQ then .DXGI_COLOR_SPACE_RGB_FULL_G2084_NONE_P2020
        else .DXGI_COLOR_SPACE_RGB_FULL_G22_NONE_P709
      let s := { s with g_swapChain := some { sc with colorSpace := some cs } }
      let s := { s with g_mode := mode }
      CreateRTV api s

/-- C++ `ResizeSwapChain`.  `ResizeBuffers` is called with `DXGI_FORMAT_UNKNOWN`, which
keeps the format; its result is ignored by the program. -/
def ResizeSwapChain (api : ApiOutcome) (s : D3DState) : D3DState :=
  match s.g_swapChain with
  | none => s
  | some sc =>
    let s := ReleaseRTV s
    let width : Nat := max (toUint api.clientWidth) 1
    let height : Nat := max (toUint api.clientHeight) 1
    let s :=
      if api.resizeBuffersOk then
        { s with g_swapChain := some { sc with width := width, height := height } }
      else s
    (CreateRTV api s).2

/-- C++ `Render`: whether the frame is drawn and presented (false on the early return). -/
def Render (s : D3DState) : Bool := s.g_context && s.g_rtv


/-! ## Control parsing (Main.cpp lines 263-267, 641-664) -/

/-- The globals `ParseControls` writes: the test-pattern values and, through
`CreateSwapChainForMode`, the swap-chain globals. -/
structure Globals (F : Type) where
  g_startNits : F
  g_endNits : F
  g_numBars : Int
  d3d : D3DState

/-- What `ParseControls` reads from the toolbar: the results of `wcstod` on the Start
and End fields, of `_wtoi` on the Bars field, and of `CB_GETCURSEL` on the mode box. -/
structure ControlValues (F : Type) where
  startValue : F
  endValue : F
  bars : Int
  sel : Int

/-- The mode chosen by a combo-box selection: `(sel == 1) ? MODE_FP16_SCRGB : MODE_HDR10_PQ`. -/
def selectedMode (sel : Int) : OutputMode :=
  if sel = 1 then .MODE_FP16_SCRGB else .MODE_HDR10_PQ

/-- C++ `ParseControls`.  The result of `CreateSwapChainForMode` is discarded. -/
def ParseControls {F : Type} [LinearOrderedField F] (api : ApiOutcome)
    (ctl : ControlValues F) (g : Globals F) : Globals F :=
  let g := { g with g_startNits := max 0 (min ctl.startValue 10000) }
  let g := { g with g_endNits := max 0 (min ctl.endValue 10000) }
  let g := { g with g_numBars := max 2 (min ctl.bars 100) }
  let newMode : OutputMode := selectedMode ctl.sel
  if newMode ≠ g.d3d.g_mode then
    { g with d3d := (CreateSwapChainForMode api newMode g.d3d).2 }
  else g

/-! ## Application defaults (Main.cpp lines 211-215, 840) -/

/-- The constant buffer of the first frame: `DEFAULT_START_NITS`, `DEFAULT_END_NITS`,
`DEFAULT_NUM_BARS`, `DEFAULT_LABEL_NITS`, mode `MODE_HDR10_PQ`, and the 1280x760
render area left by the 1280x800 window under the 40-pixel toolbar. -/
def defaultParams : TestParams ℚ :=
  { startNits := 0.005, endNits := 0.00248, viewportSize := (1280, 760),
    numBars := 20, outputMode := 0, labelNits := 5, pad := 0 }

/-- The default values in scRGB mode on a render area shrunk to 1280x100, where the
20-pixel label is taller than the 5-pixel bars. -/
def smallWindowParams : TestParams ℚ :=
  { startNits := 0.005, endNits := 0.00248, viewportSize := (1280, 100),
    numBars := 20, outputMode := 1, labelNits := 5, pad := 0 }

/-- Every API call succeeding on the default 1280x760 render area. -/
def allOk : ApiOutcome :=
  { clientWidth := 1280, clientHeight := 760, createSwapChainOk := true,
    queryInterfaceOk := true, getBufferOk := true, createViewOk := true,
    resizeBuffersOk := true }

/-- The swap-chain globals once `InitD3D` has run `CreateSwapChainForMode(g_mode)`
(Main.cpp line 490) with every call succeeding: a 1280x760 HDR10 surface with its view. -/
def stateAfterInit : D3DState :=
  (CreateSwapChainForMode allOk .MODE_HDR10_PQ
    { g_context := true, g_swapChain := none, g_swapChain3 := false, g_rtv := false,
      g_mode := .MODE_HDR10_PQ }).2

/-! ## Specification-side definitions -/

/-- The decimal numeral of `n`, most significant digit first, without a leading
zero (`[0]` for `n = 0`).  Specification side of the label renderer. -/
def decimalDigits (n : Nat) : List Nat :=
  if n = 0 then [0] else (Nat.digits 10 n).reverse

/-! ## Theorems -/

/-- C1: what `CreateSwapChainForMode` selects once the swap chain and its
`IDXGISwapChain3` interface exist.  For `MODE_HDR10_PQ` the format is
`R10G10B10A2_UNORM` and the colour space is full-range RGB, PQ, BT.2020.  For
`MODE_FP16_SCRGB` the format is `R16G16B16A16_FLOAT`, but the colour space passed
to `SetColorSpace1` is `RGB_FULL_G22_NONE_P709`, whose transfer is gamma 2.2 and
not linear (the linear constant is `RGB_FULL_G10_NONE_P709`). -/
theorem C1_selected_format_and_color_space (api : ApiOutcome) (s : D3DState)
    (hc : api.createSwapChainOk = true) (hq : api.queryInterfaceOk = true) :
    ((CreateSwapChainForMode api .MODE_HDR10_PQ s).2.g_swapChain.map
        (fun sc => (sc.format, sc.colorSpace.map colorSpaceInfo))
      = some (.DXGI_FORMAT_R10G10B10A2_UNORM, some ⟨true, .pq, .bt2020⟩)) ∧
    ((CreateSwapChainForMode api .MODE_FP16_SCRGB s).2.g_swapChain.map
        (fun sc => (sc.format, sc.colorSpace))
      = some (.DXGI_FORMAT_R16G16B16A16_FLOAT,
          some .DXGI_COLOR_SPACE_RGB_FULL_G22_NONE_P709)) ∧
    (colorSpaceInfo .DXGI_COLOR_SPACE_RGB_FULL_G22_NONE_P709).transfer = .gamma22 ∧
    (colorSpaceInfo .DXGI_COLOR_SPACE_RGB_FULL_G22_NONE_P709).transfer ≠ .linear := by
  refine ⟨?_, ?_, rfl, by decide⟩
  · simp only [CreateSwapChainForMode, CreateRTV, ReleaseRTV, hc, hq]
    cases api.getBufferOk <;> cases api.createViewOk <;> simp [colorSpaceInfo]
  · simp only [CreateSwapChainForMode, CreateRTV, ReleaseRTV, hc, hq]
    cases api.getBufferOk <;> cases api.createViewOk <;> simp

/-- C1 at a concrete call: a 1280x760 client area, every API call succeeding,
starting from the state before the first swap chain exists. -/
theorem C1_selected_format_and_color_space_witness :
    ((CreateSwapChainForMode ⟨1280, 760, true, true, true, true, true⟩ .MODE_FP16_SCRGB
        ⟨true, none, false, false, .MODE_HDR10_PQ⟩).2.g_swapChain.map
        (fun sc => (sc.format, sc.colorSpace))
      = some (.DXGI_FORMAT_R16G16B16A16_FLOAT,
          some .DXGI_COLOR_SPACE_RGB_FULL_G22_NONE_P709)) :=
  (C1_selected_format_and_color_space ⟨1280, 760, true, true, true, true, true⟩
    ⟨true, none, false, false, .MODE_HDR10_PQ⟩ rfl rfl).2.1

/-- With the real power function, `ApplyPQ` maps 0 to `c1 ^ m2` in each channel. -/
theorem ApplyPQ_rpow_zero :
    ApplyPQ (fun x y : ℝ => x ^ y) (0, 0, 0)
      = ((0.8359375 : ℝ) ^ (78.84375 : ℝ), (0.8359375 : ℝ) ^ (78.84375 : ℝ),
          (0.8359375 : ℝ) ^ (78.84375 : ℝ)) := by
  have hz : (0 : ℝ) ^ (0.1593017578125 : ℝ) = 0 := Real.zero_rpow (by norm_num)
  simp only [ApplyPQ, max_self, hz, mul_zero, add_zero, div_one]

/-- C2 (as stated, refuted): with the real power function, the PQ encoding of
0 nits is not `(0, 0, 0)`. -/
theorem C2_pq_of_zero_is_not_black :
    encode (fun x y : ℝ => x ^ y) 0 0 ≠ (0, 0, 0) := by
  intro h
  simp only [encode, if_true, zero_div] at h
  rw [ApplyPQ_rpow_zero] at h
  have hp : (0 : ℝ) < (0.8359375 : ℝ) ^ (78.84375 : ℝ) :=
    Real.rpow_pos_of_pos (by norm_num) _
  have := congrArg Prod.fst h
  simp only at this
  linarith

/-- C2 (amended): with the real power function, the PQ encoding of 0 nits is
`c1 ^ m2` in each channel, a positive value below one millionth. -/
theorem C2_pq_of_zero_value :
    encode (fun x y : ℝ => x ^ y) 0 0
      = ((0.8359375 : ℝ) ^ (78.84375 : ℝ), (0.8359375 : ℝ) ^ (78.84375 : ℝ),
          (0.8359375 : ℝ) ^ (78.84375 : ℝ)) ∧
    (0 : ℝ) < (0.8359375 : ℝ) ^ (78.84375 : ℝ) ∧
    (0.8359375 : ℝ) ^ (78.84375 : ℝ) < 1 / 1000000 := by
  refine ⟨?_, Real.rpow_pos_of_pos (by norm_num) _, ?_⟩
  · simp only [encode, if_true, zero_div]
    exact ApplyPQ_rpow_zero
  · have h1 : (0.8359375 : ℝ) ^ (78.84375 : ℝ) ≤ (0.8359375 : ℝ) ^ ((78 : ℕ) : ℝ) :=
      Real.rpow_le_rpow_of_exponent_ge (by norm_num) (by norm_num) (by norm_num)
    rw [Real.rpow_natCast] at h1
    have h2 : (0.8359375 : ℝ) ^ (78 : ℕ) < 1 / 1000000 := by norm_num
    linarith

/-- C3: for any `pow` with `pow(1, y) = 1`, the PQ encoding of 10000 nits is
`(1, 1, 1)`: the normalised input is 1 and `c1 + c2 = 1 + c3`. -/
theorem C3_pq_of_peak_is_white {F : Type} [LinearOrderedField F] (pow : F → F → F)
    (hpow : ∀ y : F, pow 1 y = 1) :
    encode pow 0 (10000 : F) = (1, 1, 1) := by
  have hmax : max (1 : F) 0 = 1 := max_eq_left zero_le_one
  have hq : ((0.8359375 : F) + 18.8515625 * 1) / (1 + 18.6875 * 1) = 1 := by norm_num
  have hn : (10000 : F) / 10000 = 1 := by norm_num
  simp only [encode, if_true, ApplyPQ, hn, hmax, hpow, hq]

/-- C3 with the real power function. -/
theorem C3_pq_of_peak_is_white_witness :
    (∀ y : ℝ, (fun x y : ℝ => x ^ y) 1 y = 1) ∧
    encode (fun x y : ℝ => x ^ y) 0 (10000 : ℝ) = (1, 1, 1) :=
  ⟨fun y => Real.one_rpow y, C3_pq_of_peak_is_white _ (fun y => Real.one_rpow y)⟩

/-- Inside the 3x5 cell, `SampleGlyph` reads bit `14 - (3 * y + x)` of the pattern
(checked on all 150 cells). -/
theorem SampleGlyph_cell : ∀ d : Fin 10, ∀ x : Fin 3, ∀ y : Fin 5,
    SampleGlyph d.val ⟨(x.val : Int), (y.val : Int)⟩
      = (kDigits.getD d.val 0).testBit (14 - (3 * y.val + x.val)) := by
  decide

/-- Outside the 3x5 cell `SampleGlyph` is false, for every 32-bit offset. -/
theorem SampleGlyph_outside (d : Nat) (x y : Int)
    (hx : -2147483648 ≤ x ∧ x < 2147483648) (hy : -2147483648 ≤ y ∧ y < 2147483648)
    (hout : ¬ (0 ≤ x ∧ x ≤ 2 ∧ 0 ≤ y ∧ y ≤ 4)) :
    SampleGlyph d ⟨x, y⟩ = false := by
  unfold SampleGlyph toUint
  simp only []
  rw [if_pos]
  omega

/-- C4: for a digit `d` in 0..9 and a 32-bit integer offset `(x, y)`,
`SampleGlyph d (x, y)` is true exactly when `0 ≤ x ≤ 2`, `0 ≤ y ≤ 4` and bit
`14 - (3 * y + x)` of `kDigits[d]` is set; in particular it is false for every
offset outside the cell, negative ones included. -/
theorem C4_SampleGlyph_iff (d : Nat) (x y : Int) (hd : d ≤ 9)
    (hx : -2147483648 ≤ x ∧ x < 2147483648) (hy : -2147483648 ≤ y ∧ y < 2147483648) :
    SampleGlyph d ⟨x, y⟩ = true ↔
      (0 ≤ x ∧ x ≤ 2 ∧ 0 ≤ y ∧ y ≤ 4 ∧
        (kDigits.getD d 0).testBit (14 - (3 * y + x)).toNat = true) := by
  by_cases hin : 0 ≤ x ∧ x ≤ 2 ∧ 0 ≤ y ∧ y ≤ 4
  · obtain ⟨hx0, hx2, hy0, hy4⟩ := hin
    have key := SampleGlyph_cell ⟨d, by omega⟩ ⟨x.toNat, by omega⟩ ⟨y.toNat, by omega⟩
    simp only [] at key
    have ex : ((x.toNat : Nat) : Int) = x := Int.toNat_of_nonneg hx0
    have ey : ((y.toNat : Nat) : Int) = y := Int.toNat_of_nonneg hy0
    rw [ex, ey] at key
    have e3 : (14 - (3 * y + x)).toNat = 14 - (3 * y.toNat + x.toNat) := by omega
    rw [key, e3]
    simp [hx0, hx2, hy0, hy4]
  · rw [SampleGlyph_outside d x y hx hy hin]
    constructor
    · intro h; cases h
    · intro h; exact absurd ⟨h.1, h.2.1, h.2.2.1, h.2.2.2.1⟩ hin

/-- C4 at digit 7: the top-left pixel `(0, 0)` is lit (bit 14 of 29257), and the
offset `(-1, 0)` left of the cell is not. -/
theorem C4_SampleGlyph_iff_witness :
    (SampleGlyph 7 ⟨0, 0⟩ = true ↔
      ((0 : Int) ≤ 0 ∧ (0 : Int) ≤ 2 ∧ (0 : Int) ≤ 0 ∧ (0 : Int) ≤ 4 ∧
        (kDigits.getD 7 0).testBit (14 - (3 * (0 : Int) + 0)).toNat = true)) ∧
    (SampleGlyph 7 ⟨-1, 0⟩ = true ↔
      ((0 : Int) ≤ -1 ∧ (-1 : Int) ≤ 2 ∧ (0 : Int) ≤ 0 ∧ (0 : Int) ≤ 4 ∧
        (kDigits.getD 7 0).testBit (14 - (3 * (0 : Int) + -1)).toNat = true)) ∧
    SampleGlyph 7 ⟨0, 0⟩ = true ∧ SampleGlyph 7 ⟨-1, 0⟩ = false :=
  ⟨C4_SampleGlyph_iff 7 0 0 (by decide) (by decide) (by decide),
   C4_SampleGlyph_iff 7 (-1) 0 (by decide) (by decide) (by decide),
   by decide, by decide⟩

/-- The cast `(int)` of an integer-valued `float` is that integer. -/
theorem truncToInt_intCast {F : Type} [LinearOrderedField F] [FloorRing F] (n : Int) :
    truncToInt ((n : Int) : F) = n := by
  unfold truncToInt
  split <;> simp

/-- C5 (failing input): at `nits = 1 - 2^-20 = 0.99999904632568359375` the integer
part is 0 and `fracVal` is 100000, outside 0..99999; every fractional slot then
samples the digit 0, so `SampleValue` draws the same pixels as for `nits = 0`
("0.00000"), while the value rounded to five decimals is 1. -/
theorem C5_rounding_carry_is_dropped :
    truncToInt ((1048575 : ℚ) / 1048576) = 0 ∧
    truncToInt (hlslRound (((1048575 : ℚ) / 1048576 - ((0 : Int) : ℚ)) * 100000)) = 100000 ∧
    (∀ screenPos origin : int2,
      SampleValue ((1048575 : ℚ) / 1048576) screenPos origin
        = SampleValue (0 : ℚ) screenPos origin) ∧
    hlslRound ((1048575 : ℚ) / 1048576 * 100000) / 100000 = 1 := by
  have hi : truncToInt ((1048575 : ℚ) / 1048576) = 0 := by
    unfold truncToInt; norm_num
  have hf : truncToInt (hlslRound (((1048575 : ℚ) / 1048576 - ((0 : Int) : ℚ)) * 100000))
      = 100000 := by
    have : hlslRound (((1048575 : ℚ) / 1048576 - ((0 : Int) : ℚ)) * 100000)
        = ((100000 : Int) : ℚ) := by
      unfold hlslRound; norm_num
    rw [this, truncToInt_intCast]
  have hi0 : truncToInt (0 : ℚ) = 0 := by
    unfold truncToInt; norm_num
  have hf0 : truncToInt (hlslRound (((0 : ℚ) - ((0 : Int) : ℚ)) * 100000)) = 0 := by
    have : hlslRound (((0 : ℚ) - ((0 : Int) : ℚ)) * 100000) = ((0 : Int) : ℚ) := by
      unfold hlslRound; norm_num
    rw [this, truncToInt_intCast]
  refine ⟨hi, hf, ?_, ?_⟩
  · intro screenPos origin
    simp only [SampleValue, hi, hf, hi0, hf0]
    generalize wrapInt32 (screenPos.x - origin.x) = lx
    generalize wrapInt32 (screenPos.y - origin.y) = ly
    simp only [FONT_SCALE, max_self, if_true]
    generalize hc : Int.tdiv lx ((3 + 1) * 4) = c
    split_ifs with h1 h2 h3 h4 h5
    all_goals try rfl
    have hc2 : 2 ≤ c := by omega
    have hc6 : c ≤ 6 := by omega
    interval_cases c <;> simp [mulTenLoop, Int.tdiv, Int.tmod]
  · unfold hlslRound; norm_num

/-- The digit-counting loop adds the length of the base-10 digit list of `n`. -/
theorem countDigitsLoop_eq (n : Nat) : ∀ acc : Nat,
    countDigitsLoop n acc = acc + (Nat.digits 10 n).length := by
  induction n using Nat.strong_induction_on with
  | _ n ih =>
    intro acc
    rw [countDigitsLoop]
    by_cases h : 0 < n
    · rw [dif_pos h, ih (n / 10) (Nat.div_lt_self h (by decide)),
        Nat.digits_def' (by decide : 1 < 10) h, List.length_cons]
      omega
    · have hn : n = 0 := by omega
      subst hn
      simp

/-- The digit count computed by `SampleValue` is the length of the decimal numeral. -/
theorem intDigits_eq (n : Nat) :
    (if max (n : Int) 0 = 0 then (1 : Int)
      else ((countDigitsLoop (max (n : Int) 0).toNat 0 : Nat) : Int))
      = ((decimalDigits n).length : Int) := by
  have hm : max (n : Int) 0 = (n : Int) := max_eq_left (by positivity)
  rw [hm, Int.toNat_natCast, countDigitsLoop_eq]
  unfold decimalDigits
  by_cases hn : n = 0
  · subst hn; simp
  · have : ¬ ((n : Int) = 0) := by exact_mod_cast hn
    rw [if_neg this, if_neg hn]
    simp

/-- The cast `(int)` is monotone. -/
theorem truncToInt_mono {F : Type} [LinearOrderedField F] [FloorRing F] {a b : F}
    (h : a ≤ b) : truncToInt a ≤ truncToInt b := by
  unfold truncToInt
  by_cases ha : 0 ≤ a
  · rw [if_pos ha, if_pos (le_trans ha h)]
    exact Int.floor_le_floor h
  · rw [if_neg ha]
    by_cases hb : 0 ≤ b
    · rw [if_pos hb]
      have h1 : ⌈a⌉ ≤ 0 := Int.ceil_le.2 (by push_cast; exact le_of_lt (not_le.1 ha))
      have h2 : 0 ≤ ⌊b⌋ := Int.floor_nonneg.2 hb
      omega
    · rw [if_neg hb]
      exact Int.ceil_le_ceil h

/-- HLSL `clamp` is monotone in its first argument. -/
theorem clampInt_mono {a b : Int} (lo hi : Int) (h : a ≤ b) :
    clampInt a lo hi ≤ clampInt b lo hi := by
  unfold clampInt
  omega

/-- C7: for `2 ≤ numBars ≤ 100` and viewport height `H ≥ 1`, `barIdx` is monotonically
non-decreasing in the screen coordinate `y`, lies in `0 .. numBars - 1`, and every
index of that range is the `barIdx` of some `y` in `[0, H)`. -/
theorem C7_barIdx_monotone_onto {F : Type} [LinearOrderedField F] [FloorRing F]
    (cb : TestParams F) (hn : 2 ≤ cb.numBars ∧ cb.numBars ≤ 100)
    (hH : 1 ≤ cb.viewportSize.2) :
    (∀ x₁ x₂ y₁ y₂ : F, y₁ ≤ y₂ → barIdx cb (x₁, y₁) ≤ barIdx cb (x₂, y₂)) ∧
    (∀ x y : F, 0 ≤ y → y < cb.viewportSize.2 →
      0 ≤ barIdx cb (x, y) ∧ barIdx cb (x, y) ≤ cb.numBars - 1) ∧
    (∀ i : Int, 0 ≤ i → i ≤ cb.numBars - 1 →
      ∃ y : F, 0 ≤ y ∧ y < cb.viewportSize.2 ∧ ∀ x : F, barIdx cb (x, y) = i) := by
  have hnF : (0 : F) < (cb.numBars : F) := by
    have : (0 : Int) < cb.numBars := by omega
    exact_mod_cast this
  have hHpos : (0 : F) < cb.viewportSize.2 := lt_of_lt_of_le one_pos hH
  have hbar : (0 : F) < barH cb := div_pos hHpos hnF
  refine ⟨?_, ?_, ?_⟩
  · intro x₁ x₂ y₁ y₂ hy
    unfold barIdx
    apply clampInt_mono
    apply truncToInt_mono
    exact div_le_div_of_nonneg_right hy (le_of_lt hbar)
  · intro x y _ _
    unfold barIdx clampInt
    omega
  · intro i hi0 hi1
    refine ⟨(i : F) * barH cb, ?_, ?_, ?_⟩
    · have : (0 : F) ≤ (i : F) := by exact_mod_cast hi0
      exact mul_nonneg this (le_of_lt hbar)
    · have hlt : (i : F) < (cb.numBars : F) := by
        have : i < cb.numBars := by omega
        exact_mod_cast this
      unfold barH
      rw [mul_div_assoc', div_lt_iff₀ hnF]
      calc (i : F) * cb.viewportSize.2 < (cb.numBars : F) * cb.viewportSize.2 :=
            mul_lt_mul_of_pos_right hlt hHpos
        _ = cb.viewportSize.2 * (cb.numBars : F) := mul_comm _ _
    · intro x
      unfold barIdx
      simp only
      rw [mul_div_assoc, div_self (ne_of_gt hbar), mul_one, truncToInt_intCast]
      unfold clampInt
      omega

/-- C7 at the default configuration (20 bars, 760 rows): the rows `0.5` and `759.5`
lie in the first and the last bar. -/
theorem C7_barIdx_monotone_onto_witness :
    (2 ≤ defaultParams.numBars ∧ defaultParams.numBars ≤ 100) ∧
    (1 : ℚ) ≤ defaultParams.viewportSize.2 ∧
    barIdx defaultParams (0.5, 0.5) ≤ barIdx defaultParams (0.5, 759.5) ∧
    (∀ i : Int, 0 ≤ i → i ≤ defaultParams.numBars - 1 →
      ∃ y : ℚ, 0 ≤ y ∧ y < defaultParams.viewportSize.2 ∧
        ∀ x : ℚ, barIdx defaultParams (x, y) = i) :=
  have h := C7_barIdx_monotone_onto defaultParams (by decide)
    (by norm_num [defaultParams])
  ⟨by decide, by norm_num [defaultParams], h.1 _ _ _ _ (by norm_num), h.2.2⟩

/-- C8: for `numBars > 1`, the bar luminance is `startNits` in bar 0 and `endNits`
in bar `numBars - 1` (the interpolation parameter is 0 and 1 there). -/
theorem C8_barNits_endpoints {F : Type} [LinearOrderedField F] [FloorRing F]
    (cb : TestParams F) (screenCoord : F × F) (hn : cb.numBars > 1) :
    (barIdx cb screenCoord = 0 → barNits cb screenCoord = cb.startNits) ∧
    (barIdx cb screenCoord = cb.numBars - 1 → barNits cb screenCoord = cb.endNits) := by
  constructor
  · intro h
    simp only [barNits, lerp, if_pos hn, h, Int.cast_zero, zero_div, sub_zero, mul_one,
      mul_zero, add_zero]
  · intro h
    have hne : ((cb.numBars - 1 : Int) : F) ≠ 0 := by
      have : cb.numBars - 1 ≠ 0 := by omega
      exact_mod_cast this
    simp only [barNits, lerp, if_pos hn, h, div_self hne, sub_self, mul_zero, mul_one,
      zero_add]

/-- C8 at the default configuration: the pixel row `0.5` (bar 0) shows 0.005 nits and
the pixel row `759.5` (bar 19) shows 0.00248 nits. -/
theorem C8_barNits_endpoints_witness :
    defaultParams.numBars > 1 ∧
    barIdx defaultParams (300.5, 0.5) = 0 ∧
    barNits defaultParams (300.5, 0.5) = 0.005 ∧
    barIdx defaultParams (300.5, 759.5) = defaultParams.numBars - 1 ∧
    barNits defaultParams (300.5, 759.5) = 0.00248 := by
  have hb0 : barIdx defaultParams (300.5, 0.5) = 0 := by
    simp only [barIdx, barH, defaultParams, truncToInt, clampInt]
    norm_num
  have hb1 : barIdx defaultParams (300.5, 759.5) = defaultParams.numBars - 1 := by
    simp only [barIdx, barH, defaultParams, truncToInt, clampInt]
    norm_num
  exact ⟨by decide, hb0,
    (C8_barNits_endpoints defaultParams (300.5, 0.5) (by decide)).1 hb0, hb1,
    (C8_barNits_endpoints defaultParams (300.5, 759.5) (by decide)).2 hb1⟩

/-- C9: the colour returned by `main` follows a strict priority: black if `isSep`;
otherwise the label colour if `isText`; otherwise black if `inLabel`; otherwise the
bar colour; alpha is 1.  In particular a pixel with both `isSep` and `isText` is
black. -/
theorem C9_compositing_priority {F : Type} [LinearOrderedField F] [FloorRing F]
    (pow : F → F → F) (cb : TestParams F) (screenCoord : F × F) :
    (main pow cb screenCoord =
      if isSep cb screenCoord = true then (0, 0, 0, 1)
      else if isText cb screenCoord = true then
        ((encode pow cb.outputMode cb.labelNits).1,
          (encode pow cb.outputMode cb.labelNits).2.1,
          (encode pow cb.outputMode cb.labelNits).2.2, 1)
      else if inLabel screenCoord = true then (0, 0, 0, 1)
      else
        ((encode pow cb.outputMode (barNits cb screenCoord)).1,
          (encode pow cb.outputMode (barNits cb screenCoord)).2.1,
          (encode pow cb.outputMode (barNits cb screenCoord)).2.2, 1)) ∧
    (main pow cb screenCoord).2.2.2 = 1 ∧
    (isSep cb screenCoord = true → isText cb screenCoord = true →
      main pow cb screenCoord = (0, 0, 0, 1)) := by
  refine ⟨?_, rfl, ?_⟩
  · unfold main
    by_cases hs : isSep cb screenCoord = true <;>
    by_cases ht : isText cb screenCoord = true <;>
    by_cases hl : inLabel screenCoord = true <;>
    simp [hs, ht, hl]
  · intro hs _
    unfold main
    simp [hs]

/-- C9 on a 1280x100 render area with 20 bars in scRGB mode: the pixel `(10.5, 0.5)`
lies on the top separator of bar 0 and on the label text, and is drawn black although
the label colour is `5 / 80`. -/
theorem C9_compositing_priority_witness :
    isSep smallWindowParams (10.5, 0.5) = true ∧
    isText smallWindowParams (10.5, 0.5) = true ∧
    encode (fun x _ => x) smallWindowParams.outputMode smallWindowParams.labelNits
      = (1 / 16, 1 / 16, 1 / 16) ∧
    main (fun x _ => x) smallWindowParams (10.5, 0.5) = (0, 0, 0, 1) := by
  have hs : isSep smallWindowParams (10.5, 0.5) = true := by
    simp only [isSep, fmod, barH, smallWindowParams, truncToInt, SEP_PX]
    norm_num
  have hidx : barIdx smallWindowParams (10.5, 0.5) = 0 := by
    simp only [barIdx, barH, smallWindowParams, truncToInt, clampInt]
    norm_num
  have hn : barNits smallWindowParams (10.5, 0.5) = 0.005 := by
    simp only [barNits, lerp, hidx]
    norm_num [smallWindowParams]
  have hi : truncToInt (0.005 : ℚ) = 0 := by unfold truncToInt; norm_num
  have hy : truncToInt ((((0 : Int) : ℚ)) * barH smallWindowParams
      + (barH smallWindowParams - ((5 * FONT_SCALE : Int) : ℚ)) * 0.5) = -7 := by
    simp only [truncToInt, barH, smallWindowParams, FONT_SCALE]
    norm_num
    rw [Int.ceil_eq_iff]
    norm_num
  have hx : truncToInt (10.5 : ℚ) = 10 := by unfold truncToInt; norm_num
  have h0 : truncToInt (0.5 : ℚ) = 0 := by unfold truncToInt; norm_num
  have ht : isText smallWindowParams (10.5, 0.5) = true := by
    simp only [isText, hn, hidx, hx, h0, hy]
    simp only [SampleValue, hi]
    norm_num [wrapInt32, FONT_SCALE, Int.tdiv, Int.tmod, mulTenLoop, clampInt, toUint]
    decide
  refine ⟨hs, ht, ?_, ?_⟩
  · simp only [encode, smallWindowParams]; norm_num
  · exact (C9_compositing_priority (fun x _ => x) smallWindowParams (10.5, 0.5)).2.2 hs ht

/-- C10: in scRGB mode (`outputMode ≠ 0`) the encoder returns `nits / 80` in each
channel, unclamped: 80 nits gives `(1, 1, 1)`, 0 nits gives `(0, 0, 0)`, and every
channel exceeds 1 when `nits > 80`. -/
theorem C10_scrgb_is_nits_over_80 {F : Type} [LinearOrderedField F]
    (pow : F → F → F) (outputMode : Int) (nits : F) (hm : outputMode ≠ 0) :
    encode pow outputMode nits = (nits / 80, nits / 80, nits / 80) ∧
    encode pow outputMode 80 = (1, 1, 1) ∧
    encode pow outputMode 0 = (0, 0, 0) ∧
    (80 < nits →
      1 < (encode pow outputMode nits).1 ∧ 1 < (encode pow outputMode nits).2.1 ∧
        1 < (encode pow outputMode nits).2.2) := by
  have h80 : (80 : F) / 80 = 1 := by norm_num
  refine ⟨?_, ?_, ?_, ?_⟩
  · simp only [encode, if_neg hm]
  · simp only [encode, if_neg hm, h80]
  · simp only [encode, if_neg hm, zero_div]
  · intro h
    have h1 : (1 : F) < nits / 80 := by
      rw [lt_div_iff₀ (by norm_num : (0 : F) < 80)]
      linarith
    simp only [encode, if_neg hm]
    exact ⟨h1, h1, h1⟩

/-- C10 in mode 1 at 10000 nits: each channel is 125. -/
theorem C10_scrgb_is_nits_over_80_witness :
    (1 : Int) ≠ 0 ∧ (80 : ℚ) < 10000 ∧
    encode (fun x _ => x) 1 (10000 : ℚ) = (125, 125, 125) ∧
    encode (fun x _ => x) 1 (80 : ℚ) = (1, 1, 1) ∧
    encode (fun x _ => x) 1 (0 : ℚ) = (0, 0, 0) ∧
    1 < (encode (fun x _ => x) 1 (10000 : ℚ)).1 := by
  have h := C10_scrgb_is_nits_over_80 (fun x _ => x) 1 (10000 : ℚ) (by decide)
  have e : (10000 : ℚ) / 80 = 125 := by norm_num
  rw [e] at h
  exact ⟨by decide, by norm_num, h.1, h.2.1, h.2.2.1, (h.2.2.2 (by norm_num)).1⟩

/-- After `CreateSwapChainForMode` the globals depend on the prior state only through
`g_context` and `g_mode`, so repeating the call with the same API outcomes changes nothing. -/
theorem CreateSwapChainForMode_repeat (api : ApiOutcome) (mode : OutputMode) (s : D3DState) :
    CreateSwapChainForMode api mode (CreateSwapChainForMode api mode s).2
      = CreateSwapChainForMode api mode s := by
  obtain ⟨cw, ch, c, q, b, v, r⟩ := api
  cases c <;> cases q <;> cases b <;> cases v <;>
    simp [CreateSwapChainForMode, CreateRTV, ReleaseRTV]

/-- C11: requesting the mode that is already active is a no-op on the swap-chain
globals (surface, view and mode are untouched); requesting a mode twice with the same
API outcomes has the same effect as requesting it once; and once a request has made
the mode active, a further request for that mode changes nothing whatever the API
would answer. -/
theorem C11_same_mode_is_noop {F : Type} [LinearOrderedField F]
    (api api2 : ApiOutcome) (ctl : ControlValues F) (g : Globals F) :
    (selectedMode ctl.sel = g.d3d.g_mode → (ParseControls api ctl g).d3d = g.d3d) ∧
    ParseControls api ctl (ParseControls api ctl g) = ParseControls api ctl g ∧
    ((ParseControls api ctl g).d3d.g_mode = selectedMode ctl.sel →
      ParseControls api2 ctl (ParseControls api ctl g) = ParseControls api ctl g) := by
  refine ⟨?_, ?_, ?_⟩
  · intro h
    simp [ParseControls, h]
  · by_cases h : selectedMode ctl.sel = g.d3d.g_mode
    · simp [ParseControls, h]
    · by_cases h2 : selectedMode ctl.sel
          = (CreateSwapChainForMode api (selectedMode ctl.sel) g.d3d).2.g_mode
      · simp [ParseControls, h, ← h2]
      · simp [ParseControls, h, h2, CreateSwapChainForMode_repeat]
  · intro h
    by_cases h1 : selectedMode ctl.sel = g.d3d.g_mode
    · simp [ParseControls, h1]
    · simp only [ParseControls, ne_eq, h1, not_false_eq_true, if_true] at h ⊢
      simp [h]

/-- C11 on the state after start-up (HDR10 surface and view present): selecting
"HDR10 PQ" again leaves the swap-chain globals as they are even if every API call
would fail, so nothing was torn down or recreated. -/
theorem C11_same_mode_is_noop_witness :
    selectedMode 0 = stateAfterInit.g_mode ∧
    stateAfterInit.g_rtv = true ∧
    (ParseControls { allOk with createSwapChainOk := false }
      ({ startValue := 1, endValue := 2, bars := 20, sel := 0 } : ControlValues ℚ)
      { g_startNits := 1, g_endNits := 2, g_numBars := 20, d3d := stateAfterInit }).d3d
      = stateAfterInit :=
  ⟨by decide, by decide,
    (C11_same_mode_is_noop { allOk with createSwapChainOk := false }
      allOk ({ startValue := 1, endValue := 2, bars := 20, sel := 0 } : ControlValues ℚ)
      { g_startNits := 1, g_endNits := 2, g_numBars := 20, d3d := stateAfterInit }).1
      (by decide)⟩

/-- C12: on a state with an existing swap chain and a client size `w x h` with
`0 ≤ w, h` (32-bit), `ResizeSwapChain` keeps the swap chain object, its format and
colour space, the `IDXGISwapChain3` pointer, the context and the mode; when
`ResizeBuffers` succeeds the buffers are `max(1, w) x max(1, h)`; and the view is the
only thing recreated (it exists afterwards exactly when `GetBuffer` and
`CreateRenderTargetView` succeed). -/
theorem C12_resize_keeps_format (api : ApiOutcome) (s : D3DState) (sc : SwapChain)
    (hs : s.g_swapChain = some sc)
    (hw : 0 ≤ api.clientWidth ∧ api.clientWidth < 2147483648)
    (hh : 0 ≤ api.clientHeight ∧ api.clientHeight < 2147483648) :
    (ResizeSwapChain api s).g_mode = s.g_mode ∧
    (ResizeSwapChain api s).g_swapChain3 = s.g_swapChain3 ∧
    (ResizeSwapChain api s).g_context = s.g_context ∧
    (∃ sc' : SwapChain, (ResizeSwapChain api s).g_swapChain = some sc' ∧
      sc'.format = sc.format ∧ sc'.colorSpace = sc.colorSpace ∧
      (api.resizeBuffersOk = true →
        (sc'.width : Int) = max 1 api.clientWidth ∧
        (sc'.height : Int) = max 1 api.clientHeight)) ∧
    (ResizeSwapChain api s).g_rtv = (api.getBufferOk && api.createViewOk) := by
  obtain ⟨cw, ch, c, q, b, v, r⟩ := api
  obtain ⟨ctx, swc, sc3, rtv, mode⟩ := s
  simp only at hs hw hh
  subst hs
  have hcw : ((max (toUint cw) 1 : Nat) : Int) = max 1 cw := by
    unfold toUint; omega
  have hch : ((max (toUint ch) 1 : Nat) : Int) = max 1 ch := by
    unfold toUint; omega
  cases b <;> cases v <;> cases r <;>
    simp [ResizeSwapChain, CreateRTV, ReleaseRTV, hcw, hch]

/-- C12 on the state after start-up with the client area collapsed to `0 x 0`: the
HDR10 surface becomes `1 x 1`, keeps its format and colour space, and has a view. -/
theorem C12_resize_keeps_format_witness :
    (ResizeSwapChain { allOk with clientWidth := 0, clientHeight := 0 } stateAfterInit)
      = { g_context := true,
          g_swapChain := some ⟨1, 1, .DXGI_FORMAT_R10G10B10A2_UNORM,
            some .DXGI_COLOR_SPACE_RGB_FULL_G2084_NONE_P2020⟩,
          g_swapChain3 := true, g_rtv := true, g_mode := .MODE_HDR10_PQ } ∧
    (ResizeSwapChain { allOk with clientWidth := 0, clientHeight := 0 } stateAfterInit).g_mode
      = stateAfterInit.g_mode :=
  ⟨by decide,
    (C12_resize_keeps_format { allOk with clientWidth := 0, clientHeight := 0 }
      stateAfterInit ⟨1280, 760, .DXGI_FORMAT_R10G10B10A2_UNORM,
        some .DXGI_COLOR_SPACE_RGB_FULL_G2084_NONE_P2020⟩ (by decide) (by decide)
        (by decide)).1⟩

/-- C13: `CreateSwapChainForMode` returns true exactly when surface creation, the
`IDXGISwapChain3` query, `GetBuffer` and `CreateRenderTargetView` all succeed; when it
returns false no render-target view exists and a following `Render` returns without
drawing; when it returns true the view exists. -/
theorem C13_failed_switch_leaves_no_view (api : ApiOutcome) (mode : OutputMode)
    (s : D3DState) :
    ((CreateSwapChainForMode api mode s).1 = true ↔
      (api.createSwapChainOk = true ∧ api.queryInterfaceOk = true ∧
        api.getBufferOk = true ∧ api.createViewOk = true)) ∧
    ((CreateSwapChainForMode api mode s).1 = false →
      (CreateSwapChainForMode api mode s).2.g_rtv = false ∧
      Render (CreateSwapChainForMode api mode s).2 = false) ∧
    ((CreateSwapChainForMode api mode s).1 = true →
      (CreateSwapChainForMode api mode s).2.g_rtv = true) := by
  obtain ⟨cw, ch, c, q, b, v, r⟩ := api
  cases c <;> cases q <;> cases b <;> cases v <;>
    simp [CreateSwapChainForMode, CreateRTV, ReleaseRTV, Render]

/-- C13 on the state after start-up: a switch to scRGB whose view creation fails
returns false, leaves no view, and `Render` does not draw. -/
theorem C13_failed_switch_leaves_no_view_witness :
    stateAfterInit.g_rtv = true ∧ Render stateAfterInit = true ∧
    (CreateSwapChainForMode { allOk with createViewOk := false } .MODE_FP16_SCRGB
      stateAfterInit).1 = false ∧
    (CreateSwapChainForMode { allOk with createViewOk := false } .MODE_FP16_SCRGB
      stateAfterInit).2.g_rtv = false ∧
    Render (CreateSwapChainForMode { allOk with createViewOk := false } .MODE_FP16_SCRGB
      stateAfterInit).2 = false :=
  have h := (C13_failed_switch_leaves_no_view { allOk with createViewOk := false }
    .MODE_FP16_SCRGB stateAfterInit).2.1 (by decide)
  ⟨by decide, by decide, by decide, h.1, h.2⟩

/-- An integer part of at most 10000 has at most five decimal digits. -/
theorem decimalDigits_length_le_five (n : Nat) (hn : n ≤ 10000) :
    (decimalDigits n).length ≤ 5 := by
  unfold decimalDigits
  by_cases hz : n = 0
  · simp [hz]
  · rw [if_neg hz, List.length_reverse, Nat.digits_len 10 n (by decide) hz]
    have := Nat.log_lt_of_lt_pow hz (show n < 10 ^ 5 by norm_num; omega)
    omega

/-- For `0 ≤ nits ≤ 10000` the numeral has at most 11 character slots of 16 pixels:
`SampleValue` is false from local x = 176 on. -/
theorem SampleValue_false_right_of_numeral {F : Type} [LinearOrderedField F] [FloorRing F]
    (nits : F) (screenPos origin : int2) (h0 : 0 ≤ nits) (h1 : nits ≤ 10000)
    (hfar : 176 ≤ wrapInt32 (screenPos.x - origin.x)) :
    SampleValue nits screenPos origin = false := by
  have hfl : truncToInt nits = ((⌊nits⌋₊ : Nat) : Int) := by
    unfold truncToInt
    rw [if_pos h0]
    exact (Int.natCast_floor_eq_floor h0).symm
  have hn : ⌊nits⌋₊ ≤ 10000 := by
    have : ((⌊nits⌋₊ : Nat) : F) ≤ 10000 := le_trans (Nat.floor_le h0) h1
    exact_mod_cast this
  have hk : ((decimalDigits ⌊nits⌋₊).length : Int) ≤ 5 := by
    exact_mod_cast decimalDigits_length_le_five _ hn
  unfold SampleValue
  simp only [FONT_SCALE, hfl, intDigits_eq]
  generalize wrapInt32 (screenPos.x - origin.x) = lx at hfar
  generalize wrapInt32 (screenPos.y - origin.y) = ly
  have hc : Int.tdiv lx ((3 + 1) * 4) = lx / 16 := by
    rw [Int.tdiv_eq_ediv (by omega) (by decide)]; rfl
  by_cases hband : ly < 0 ∨ ly ≥ 5 * 4 ∨ lx < 0
  · rw [if_pos hband]
  · rw [if_neg hband, hc, if_pos]
    omega

/-- Left of the label origin `SampleValue` is false. -/
theorem SampleValue_false_left_of_origin {F : Type} [LinearOrderedField F] [FloorRing F]
    (nits : F) (screenPos origin : int2)
    (hneg : wrapInt32 (screenPos.x - origin.x) < 0) :
    SampleValue nits screenPos origin = false := by
  unfold SampleValue
  simp only [FONT_SCALE]
  rw [if_pos (Or.inr (Or.inr hneg))]

/-- The bar luminance stays between the two configured luminances: within
`[0, 10000]` when both are. -/
theorem barNits_bounds {F : Type} [LinearOrderedField F] [FloorRing F]
    (cb : TestParams F) (screenCoord : F × F)
    (hs : 0 ≤ cb.startNits ∧ cb.startNits ≤ 10000)
    (he : 0 ≤ cb.endNits ∧ cb.endNits ≤ 10000) (hn : 2 ≤ cb.numBars) :
    0 ≤ barNits cb screenCoord ∧ barNits cb screenCoord ≤ 10000 := by
  have hidx : 0 ≤ barIdx cb screenCoord ∧ barIdx cb screenCoord ≤ cb.numBars - 1 := by
    unfold barIdx clampInt; omega
  have hdpos : (0 : F) < ((cb.numBars - 1 : Int) : F) := by
    have : (0 : Int) < cb.numBars - 1 := by omega
    exact_mod_cast this
  have hi0 : (0 : F) ≤ ((barIdx cb screenCoord : Int) : F) := by exact_mod_cast hidx.1
  have hi1 : ((barIdx cb screenCoord : Int) : F) ≤ ((cb.numBars - 1 : Int) : F) := by
    exact_mod_cast hidx.2
  have ht0 : (0 : F) ≤ ((barIdx cb screenCoord : Int) : F) / ((cb.numBars - 1 : Int) : F) :=
    div_nonneg hi0 (le_of_lt hdpos)
  have ht1 : ((barIdx cb screenCoord : Int) : F) / ((cb.numBars - 1 : Int) : F) ≤ 1 := by
    rw [div_le_one hdpos]; exact hi1
  have hgt : cb.numBars > 1 := by omega
  simp only [barNits, lerp, if_pos hgt]
  generalize ((barIdx cb screenCoord : Int) : F) / ((cb.numBars - 1 : Int) : F) = t at ht0 ht1
  obtain ⟨hs0, hs1⟩ := hs
  obtain ⟨he0, he1⟩ := he
  have h1t : 0 ≤ 1 - t := by linarith
  constructor
  · exact add_nonneg (mul_nonneg hs0 h1t) (mul_nonneg he0 ht0)
  · have ha : cb.startNits * (1 - t) ≤ 10000 * (1 - t) := mul_le_mul_of_nonneg_right hs1 h1t
    have hb : cb.endNits * t ≤ 10000 * t := mul_le_mul_of_nonneg_right he1 ht0
    linarith

/-- C15: for `startNits`, `endNits` in `[0, 10000]`, `numBars` in `[2, 100]` and a pixel
whose integer x coordinate is a 32-bit `int`, a pixel with `isText` has `inLabel`:
its integer x lies in `10 .. 185`, left of the label width 212. -/
theorem C15_text_inside_label {F : Type} [LinearOrderedField F] [FloorRing F]
    (cb : TestParams F) (screenCoord : F × F)
    (hs : 0 ≤ cb.startNits ∧ cb.startNits ≤ 10000)
    (he : 0 ≤ cb.endNits ∧ cb.endNits ≤ 10000)
    (hn : 2 ≤ cb.numBars ∧ cb.numBars ≤ 100)
    (hx : -2147483648 ≤ truncToInt screenCoord.1 ∧ truncToInt screenCoord.1 < 2147483648)
    (ht : isText cb screenCoord = true) :
    inLabel screenCoord = true ∧
    10 ≤ truncToInt screenCoord.1 ∧ truncToInt screenCoord.1 < 186 := by
  obtain ⟨hb0, hb1⟩ := barNits_bounds cb screenCoord hs he hn.1
  have hsv : SampleValue (barNits cb screenCoord)
      ⟨truncToInt screenCoord.1, truncToInt screenCoord.2⟩
      ⟨10, truncToInt (((barIdx cb screenCoord : Int) : F) * barH cb
        + (barH cb - ((5 * FONT_SCALE : Int) : F)) * 0.5)⟩ = true := ht
  have hrange : 10 ≤ truncToInt screenCoord.1 ∧ truncToInt screenCoord.1 < 186 := by
    by_contra hcon
    by_cases hfar : 176 ≤ wrapInt32 (truncToInt screenCoord.1 - 10)
    · have hf := SampleValue_false_right_of_numeral (barNits cb screenCoord)
        ⟨truncToInt screenCoord.1, truncToInt screenCoord.2⟩
        ⟨10, truncToInt (((barIdx cb screenCoord : Int) : F) * barH cb
          + (barH cb - ((5 * FONT_SCALE : Int) : F)) * 0.5)⟩ hb0 hb1 hfar
      exact Bool.noConfusion (hsv.symm.trans hf)
    · have hneg : wrapInt32 (truncToInt screenCoord.1 - 10) < 0 := by
        unfold wrapInt32 at hfar ⊢
        omega
      have hf := SampleValue_false_left_of_origin (barNits cb screenCoord)
        ⟨truncToInt screenCoord.1, truncToInt screenCoord.2⟩
        ⟨10, truncToInt (((barIdx cb screenCoord : Int) : F) * barH cb
          + (barH cb - ((5 * FONT_SCALE : Int) : F)) * 0.5)⟩ hneg
      exact Bool.noConfusion (hsv.symm.trans hf)
  refine ⟨?_, hrange⟩
  unfold inLabel
  simp only [FONT_SCALE, decide_eq_true_eq]
  omega

/-- C15 at the default configuration: the pixel `(10.5, 9.5)` is the top-left pixel
of the label "0.00500" of bar 0; it is text, and it lies inside the label region. -/
theorem C15_text_inside_label_witness :
    isText defaultParams (10.5, 9.5) = true ∧
    inLabel ((10.5, 9.5) : ℚ × ℚ) = true ∧
    truncToInt (10.5 : ℚ) = 10 := by
  have hidx : barIdx defaultParams (10.5, 9.5) = 0 := by
    simp only [barIdx, barH, defaultParams, truncToInt, clampInt]
    norm_num
  have hnits : barNits defaultParams (10.5, 9.5) = 0.005 := by
    simp only [barNits, lerp, hidx]
    norm_num [defaultParams]
  have hi : truncToInt (0.005 : ℚ) = 0 := by unfold truncToInt; norm_num
  have hy : truncToInt ((((0 : Int) : ℚ)) * barH defaultParams
      + (barH defaultParams - ((5 * FONT_SCALE : Int) : ℚ)) * 0.5) = 9 := by
    simp only [truncToInt, barH, defaultParams, FONT_SCALE]
    norm_num
  have hxi : truncToInt (10.5 : ℚ) = 10 := by unfold truncToInt; norm_num
  have hyi : truncToInt (9.5 : ℚ) = 9 := by unfold truncToInt; norm_num
  have ht : isText defaultParams (10.5, 9.5) = true := by
    simp only [isText, hnits, hidx, hxi, hyi, hy]
    simp only [SampleValue, hi]
    norm_num [wrapInt32, FONT_SCALE, Int.tdiv, Int.tmod, mulTenLoop, clampInt, toUint]
    decide
  have h := C15_text_inside_label defaultParams (10.5, 9.5)
    (by norm_num [defaultParams]) (by norm_num [defaultParams]) (by decide)
    (by rw [hxi]; decide) ht
  exact ⟨ht, h.1, hxi⟩
end PqLuma
